import Mathlib

/-!
Verification development for `fetch_census_data.py`.

The script is a linear pipeline: read a tract table, issue one Census API
request for the B18105 variables, coerce the returned cells to numbers,
compute six derived metrics per tract (`calculate_metrics`), left-join the
metrics onto the tract table, print summary statistics, write the annotated
CSV, and finally run six data-quality checks, exiting with status 1 when any
check fails.

The embedding below mirrors the source:
  * a numeric cell after `pd.to_numeric(..., errors=coerce)` is an
    `Option ℤ` (`none` is the NaN marker for a missing or unparseable cell);
  * float division of two cells follows IEEE/pandas semantics: `x / 0` is
    `+inf` for `x > 0`, `-inf` for `x < 0`, NaN for `0 / 0`, and NaN
    whenever an operand is NaN (`FVal`, `pctDiv`);
  * `Series.round(2)` is modelled by round-half-even on rationals
    (`roundHalfEven`, `round2`); `fillna(0)` replaces NaN only, it does not
    touch infinities (`ffillna`);
  * `DataFrame.merge(..., on=GEOID, how=left)` keeps every left row in
    order, pairing it with every matching right row, or with nulls when no
    right row matches (`leftMerge`);
  * control flow of `main` (including `sys.exit(1)` paths) is modelled as a
    trace of observable events plus an exit code (`runMain`).
-/

namespace FetchCensus

/-- A pandas float cell restricted to the values this program can produce:
a rational number, NaN, or a signed infinity. -/
inductive FVal where
  | num (q : ℚ)
  | nan
  | inf
  | ninf
deriving DecidableEq

/-- NaN-propagating addition of numeric cells, as in pandas Series
arithmetic: the sum is defined only when both operands are. -/
def nadd : Option ℤ → Option ℤ → Option ℤ
  | some x, some y => some (x + y)
  | _, _ => none

/-- Round to the nearest integer, ties to even, as `numpy.round` does on the
scaled value. -/
def roundHalfEven (q : ℚ) : ℤ :=
  if q - ⌊q⌋ = 1 / 2 then (if ⌊q⌋ % 2 = 0 then ⌊q⌋ else ⌊q⌋ + 1) else round q

/-- The `Series.round(2)` operation on a rational: round `q` to two decimal
places, ties to even. -/
def round2 (q : ℚ) : ℚ := (roundHalfEven (q * 100) : ℚ) / 100

/-- `Series.round(2)` lifted to float cells: NaN and infinities round to
themselves. -/
def fround2 : FVal → FVal
  | .num q => .num (round2 q)
  | v => v

/-- `Series.fillna(0)`: replaces NaN by 0 and leaves every other value,
including infinities, unchanged. -/
def ffillna : FVal → FVal
  | .nan => .num 0
  | v => v

/-- The expression `count / denom * 100` under pandas float semantics, for
two integer-or-NaN cells: NaN if either operand is NaN, NaN for `0 / 0`,
a signed infinity for `x / 0` with `x ≠ 0`, and the exact rational
otherwise. -/
def pctDiv : Option ℤ → Option ℤ → FVal
  | some x, some y =>
      if y = 0 then (if x = 0 then .nan else if 0 < x then .inf else .ninf)
      else .num ((x : ℚ) / (y : ℚ) * 100)
  | _, _ => .nan

/-- One row of the DataFrame returned by `fetch_b18105_data`: the NAME
column, the state, county and tract code columns returned by the API, and
the 15 numeric B18105 variables after `pd.to_numeric(..., errors=coerce)`. -/
structure RawRow where
  NAME : String
  state : String
  county : String
  tract : String
  B18105_001E : Option ℤ
  B18105_004E : Option ℤ
  B18105_007E : Option ℤ
  B18105_010E : Option ℤ
  B18105_013E : Option ℤ
  B18105_016E : Option ℤ
  B18105_020E : Option ℤ
  B18105_023E : Option ℤ
  B18105_026E : Option ℤ
  B18105_029E : Option ℤ
  B18105_032E : Option ℤ
  B18105_012E : Option ℤ
  B18105_015E : Option ℤ
  B18105_028E : Option ℤ
  B18105_031E : Option ℤ
deriving DecidableEq

/-- `df[GEOID] = df[state] + df[county] + df[tract]` (line 80 of the
source). -/
def RawRow.GEOID (r : RawRow) : String := r.state ++ r.county ++ r.tract

/-- The variable list of `fetch_b18105_data`, in source order. -/
def apiVariables : List String :=
  ["B18105_001E",
   "B18105_004E", "B18105_007E", "B18105_010E", "B18105_013E", "B18105_016E",
   "B18105_020E", "B18105_023E", "B18105_026E", "B18105_029E", "B18105_032E",
   "B18105_012E", "B18105_015E",
   "B18105_028E", "B18105_031E"]

/-- The Census API base URL constant. -/
def CENSUS_API_BASE : String := "https://api.census.gov/data/2023/acs/acs5"

/-- The request URL built by `fetch_b18105_data` from the first GEOID:
state FIPS is the first two characters, county FIPS the next three. -/
def buildUrl (first_geoid : String) : String :=
  CENSUS_API_BASE ++ "?get=NAME," ++ String.intercalate "," apiVariables
    ++ "&for=tract:*&in=state:" ++ first_geoid.take 2
    ++ "&in=county:" ++ (first_geoid.drop 2).take 3

/-- The filter step `df = df[df[GEOID].isin(tract_geoids)]` of
`fetch_b18105_data`. -/
def fetchFilter (tract_geoids : List String) (rows : List RawRow) : List RawRow :=
  rows.filter (fun r => tract_geoids.contains r.GEOID)

/-- One row of the DataFrame built by `calculate_metrics`: the GEOID key
and the six derived metrics. -/
structure MetricsRow where
  GEOID : String
  total_pop_5plus : Option ℤ
  total_amb_diff : Option ℤ
  total_amb_diff_pct : FVal
  pop_65plus : Option ℤ
  pop_65plus_amb_diff : Option ℤ
  pop_65plus_amb_diff_pct : FVal
deriving DecidableEq

/-- `calculate_metrics` on a single raw row.  The sums associate to the
left in source order; each percentage is the rounded quotient times 100
with NaN subsequently filled by 0 (`round` at lines 126-129 and 144-147,
`fillna(0)` at lines 150-151). -/
def calculateMetricsRow (r : RawRow) : MetricsRow :=
  let total_pop_5plus := r.B18105_001E
  let total_amb_diff :=
    nadd (nadd (nadd (nadd (nadd (nadd (nadd (nadd (nadd
      r.B18105_004E r.B18105_007E) r.B18105_010E) r.B18105_013E)
      r.B18105_016E) r.B18105_020E) r.B18105_023E) r.B18105_026E)
      r.B18105_029E) r.B18105_032E
  let pop_65plus :=
    nadd (nadd (nadd r.B18105_012E r.B18105_015E) r.B18105_028E) r.B18105_031E
  let pop_65plus_amb_diff :=
    nadd (nadd (nadd r.B18105_013E r.B18105_016E) r.B18105_029E) r.B18105_032E
  { GEOID := r.GEOID
    total_pop_5plus := total_pop_5plus
    total_amb_diff := total_amb_diff
    total_amb_diff_pct := ffillna (fround2 (pctDiv total_amb_diff total_pop_5plus))
    pop_65plus := pop_65plus
    pop_65plus_amb_diff := pop_65plus_amb_diff
    pop_65plus_amb_diff_pct := ffillna (fround2 (pctDiv pop_65plus_amb_diff pop_65plus)) }

/-- `calculate_metrics` over the whole fetched DataFrame. -/
def calculate_metrics (df : List RawRow) : List MetricsRow :=
  df.map calculateMetricsRow

/-- One row of `generated/tracts_within_1mile.csv`: the GEOID key (read as
a string, leading zeros preserved), the NAMELSAD name column, and the
remaining pass-through attributes. -/
structure TractRow where
  GEOID : String
  NAMELSAD : String
  attrs : List String
deriving DecidableEq

/-- One row of the annotated output: the tract row plus the matched metrics
row, or `none` after a join miss (all six derived fields null). -/
structure AnnotatedRow where
  tract : TractRow
  metrics : Option MetricsRow
deriving DecidableEq

def AnnotatedRow.total_pop_5plus (a : AnnotatedRow) : Option ℤ :=
  a.metrics.bind MetricsRow.total_pop_5plus

def AnnotatedRow.total_amb_diff (a : AnnotatedRow) : Option ℤ :=
  a.metrics.bind MetricsRow.total_amb_diff

def AnnotatedRow.pop_65plus (a : AnnotatedRow) : Option ℤ :=
  a.metrics.bind MetricsRow.pop_65plus

def AnnotatedRow.pop_65plus_amb_diff (a : AnnotatedRow) : Option ℤ :=
  a.metrics.bind MetricsRow.pop_65plus_amb_diff

def AnnotatedRow.total_amb_diff_pct (a : AnnotatedRow) : FVal :=
  match a.metrics with
  | some m => m.total_amb_diff_pct
  | none => .nan

def AnnotatedRow.pop_65plus_amb_diff_pct (a : AnnotatedRow) : FVal :=
  match a.metrics with
  | some m => m.pop_65plus_amb_diff_pct
  | none => .nan

/-- `tracts_df.merge(metrics_df, on=GEOID, how=left)`: every left row is
kept in order; it is paired with each matching right row in right order,
or with nulls when no right row matches. -/
def leftMerge : List TractRow → List MetricsRow → List AnnotatedRow
  | [], _ => []
  | t :: ts, ms =>
      (match ms.filter (fun m => m.GEOID == t.GEOID) with
       | [] => [{ tract := t, metrics := none }]
       | l => l.map (fun m => { tract := t, metrics := some m })) ++ leftMerge ts ms

/-- Pandas comparison `cell < 0`: false when the cell is NaN. -/
def oltZero : Option ℤ → Bool
  | some v => decide (v < 0)
  | none => false

/-- Pandas comparison `a > b` on integer-or-NaN cells: false when either
side is NaN. -/
def ogt : Option ℤ → Option ℤ → Bool
  | some x, some y => decide (y < x)
  | _, _ => false

/-- Pandas comparison `pct > 100` on a float cell: true for `+inf`, false
for NaN and `-inf`. -/
def fgt100 : FVal → Bool
  | .num q => decide (100 < q)
  | .inf => true
  | .nan => false
  | .ninf => false

/-- The loop variable list `numeric_cols` of the data-quality checks. -/
def numeric_cols : List String :=
  ["total_pop_5plus", "total_amb_diff", "pop_65plus", "pop_65plus_amb_diff"]

/-- Column access by name, as `annotated_df[col]` for the four count
columns iterated by the negativity check. -/
def colVal (a : AnnotatedRow) : String → Option ℤ
  | "total_pop_5plus" => a.total_pop_5plus
  | "total_amb_diff" => a.total_amb_diff
  | "pop_65plus" => a.pop_65plus
  | "pop_65plus_amb_diff" => a.pop_65plus_amb_diff
  | _ => none

/-- The error list accumulated by the data-quality checks of `main`
(lines 222-248): one negativity message per affected count column, then the
five fixed containment and percentage messages, in source order.  No check
short-circuits: each contribution depends only on its own condition over
the whole table. -/
def qualityErrors (df : List AnnotatedRow) : List String :=
  ((numeric_cols.filter (fun col => df.any (fun a => oltZero (colVal a col)))).map
      (fun col => "ERROR: Negative values found in " ++ col))
  ++ (if df.any (fun a => ogt a.total_amb_diff a.total_pop_5plus) then
        ["ERROR: Total ambulatory difficulty exceeds total population"] else [])
  ++ (if df.any (fun a => ogt a.pop_65plus_amb_diff a.pop_65plus) then
        ["ERROR: 65+ ambulatory difficulty exceeds 65+ population"] else [])
  ++ (if df.any (fun a => ogt a.pop_65plus a.total_pop_5plus) then
        ["ERROR: 65+ population exceeds total population"] else [])
  ++ (if df.any (fun a => fgt100 a.total_amb_diff_pct) then
        ["ERROR: Total ambulatory difficulty percentage exceeds 100%"] else [])
  ++ (if df.any (fun a => fgt100 a.pop_65plus_amb_diff_pct) then
        ["ERROR: 65+ ambulatory difficulty percentage exceeds 100%"] else [])

/-- The nine possible quality-check messages, in the order the code can
emit them. -/
def allQualityMsgs : List String :=
  (numeric_cols.map (fun col => "ERROR: Negative values found in " ++ col))
  ++ ["ERROR: Total ambulatory difficulty exceeds total population",
      "ERROR: 65+ ambulatory difficulty exceeds 65+ population",
      "ERROR: 65+ population exceeds total population",
      "ERROR: Total ambulatory difficulty percentage exceeds 100%",
      "ERROR: 65+ ambulatory difficulty percentage exceeds 100%"]

/-- Observable events of one run of `main`, in order of occurrence.
`fetchError` is the message printed to stderr by `fetch_b18105_data`;
`crash` is the uncaught IndexError raised at line 55 when the tract list is
empty; `writeOutput` is the `to_csv` call that writes the annotated file;
`printErrors` prints the accumulated quality-check messages. -/
inductive Event where
  | readInput
  | crash
  | apiRequest (url : String)
  | fetchError (msg : String)
  | fetched (n : Nat)
  | mergeStep
  | warnMissing (n : Nat)
  | printSummary
  | writeOutput
  | printErrors (msgs : List String)
  | checksPassed
deriving DecidableEq

/-- The outcome of one run: the ordered trace of observable events and the
process exit code. -/
structure RunResult where
  events : List Event
  exitCode : Nat
deriving DecidableEq

/-- The annotated table produced by a successful run of `main` on a given
tract table and parsed API response rows. -/
def annotatedTable (ts : List TractRow) (rows : List RawRow) : List AnnotatedRow :=
  leftMerge ts (calculate_metrics (fetchFilter (ts.map TractRow.GEOID) rows))

/-- `main`, as a trace semantics.  The API interaction is abstracted by an
`Except`: `error e` is a `requests` exception (caught at line 93, printed
to stderr, `sys.exit(1)`), `ok rows` is a parsed 2xx response.  On success
the order of events follows the source exactly: merge (line 173), missing
warning (lines 176-179), summary statistics (lines 182-215), CSV write
(line 219), then the quality checks with `sys.exit(1)` on a non-empty
error list (lines 222-255). -/
def runMain (ts : List TractRow) (api : Except String (List RawRow)) : RunResult :=
  match ts with
  | [] => { events := [.readInput, .crash], exitCode := 1 }
  | t :: _ =>
    match api with
    | .error e =>
        { events := [.readInput, .apiRequest (buildUrl t.GEOID), .fetchError e]
          exitCode := 1 }
    | .ok rows =>
        let census := fetchFilter (ts.map TractRow.GEOID) rows
        let ann := leftMerge ts (calculate_metrics census)
        let missing := ann.filter (fun a => a.total_pop_5plus.isNone)
        let errs := qualityErrors ann
        { events :=
            [.readInput, .apiRequest (buildUrl t.GEOID), .fetched census.length, .mergeStep]
            ++ (if missing.length > 0 then [.warnMissing missing.length] else [])
            ++ [.printSummary, .writeOutput]
            ++ (if errs = [] then [.checksPassed] else [.printErrors errs])
          exitCode := if errs = [] then 0 else 1 }

/-- The property that a percentage cell is a rational in the interval
[0, 100]. -/
def pctInRange (v : FVal) : Prop :=
  ∃ q : ℚ, v = FVal.num q ∧ 0 ≤ q ∧ q ≤ 100

/-- The example row of the spec: universe 1000, the ten with-condition
variables summing to 150, the four senior totals summing to 200, the four
senior with-condition variables summing to 40. -/
def exRow1 : RawRow :=
  { NAME := "Census Tract 108", state := "06", county := "075", tract := "010800"
    B18105_001E := some 1000
    B18105_004E := some 20, B18105_007E := some 20, B18105_010E := some 20
    B18105_013E := some 10, B18105_016E := some 10
    B18105_020E := some 20, B18105_023E := some 20, B18105_026E := some 10
    B18105_029E := some 10, B18105_032E := some 10
    B18105_012E := some 50, B18105_015E := some 50
    B18105_028E := some 50, B18105_031E := some 50 }

/-- A row with a zero universe but a positive with-condition sum (150):
the division 150 / 0 is +inf under float semantics. -/
def zeroDenomPosRow : RawRow :=
  { NAME := "zero universe", state := "06", county := "075", tract := "010100"
    B18105_001E := some 0
    B18105_004E := some 15, B18105_007E := some 15, B18105_010E := some 15
    B18105_013E := some 15, B18105_016E := some 15
    B18105_020E := some 15, B18105_023E := some 15, B18105_026E := some 15
    B18105_029E := some 15, B18105_032E := some 15
    B18105_012E := some 0, B18105_015E := some 0
    B18105_028E := some 0, B18105_031E := some 0 }

/-- A row with a zero universe and all with-condition counts zero, and an
undefined senior total (B18105_012E is NaN). -/
def zeroRow : RawRow :=
  { NAME := "all zero", state := "06", county := "075", tract := "010200"
    B18105_001E := some 0
    B18105_004E := some 0, B18105_007E := some 0, B18105_010E := some 0
    B18105_013E := some 0, B18105_016E := some 0
    B18105_020E := some 0, B18105_023E := some 0, B18105_026E := some 0
    B18105_029E := some 0, B18105_032E := some 0
    B18105_012E := none, B18105_015E := some 0
    B18105_028E := some 0, B18105_031E := some 0 }

/-- A row in which one summand of each derived count is undefined:
B18105_004E (a with-condition summand), B18105_012E (a senior total) and
B18105_013E (a senior with-condition summand) are NaN. -/
def undefRow : RawRow :=
  { NAME := "undefined cells", state := "06", county := "075", tract := "010300"
    B18105_001E := some 100
    B18105_004E := none, B18105_007E := some 1, B18105_010E := some 1
    B18105_013E := none, B18105_016E := some 1
    B18105_020E := some 1, B18105_023E := some 1, B18105_026E := some 1
    B18105_029E := some 1, B18105_032E := some 1
    B18105_012E := none, B18105_015E := some 2
    B18105_028E := some 2, B18105_031E := some 2 }

/-- The example tract record of the spec, identifier 06075010800. -/
def exTract : TractRow :=
  { GEOID := "06075010800", NAMELSAD := "Census Tract 108", attrs := [] }

/-- A second tract record with a different identifier. -/
def exTract2 : TractRow :=
  { GEOID := "06075990100", NAMELSAD := "Census Tract 9901", attrs := [] }

/-- A fetched row for tract 06075010800 with a negative with-condition
cell, so that the quality checks fail on the derived table. -/
def badRow : RawRow :=
  { NAME := "bad row", state := "06", county := "075", tract := "010800"
    B18105_001E := some 0
    B18105_004E := some (-5), B18105_007E := some 0, B18105_010E := some 0
    B18105_013E := some 0, B18105_016E := some 0
    B18105_020E := some 0, B18105_023E := some 0, B18105_026E := some 0
    B18105_029E := some 0, B18105_032E := some 0
    B18105_012E := some 0, B18105_015E := some 0
    B18105_028E := some 0, B18105_031E := some 0 }

/-- A metrics row matching `exTract`, with innocuous values. -/
def exMetrics1 : MetricsRow :=
  { GEOID := "06075010800"
    total_pop_5plus := some 1000, total_amb_diff := some 10
    total_amb_diff_pct := FVal.num 1
    pop_65plus := some 200, pop_65plus_amb_diff := some 5
    pop_65plus_amb_diff_pct := FVal.num 1 }

/-- A merged table containing the validation-failure example of the spec:
a row with senior with-condition 50 and senior population 40. -/
def exDf5 : List AnnotatedRow :=
  [{ tract := exTract
     metrics := some
       { GEOID := "06075010800"
         total_pop_5plus := some 1000, total_amb_diff := some 60
         total_amb_diff_pct := FVal.num 6
         pop_65plus := some 40, pop_65plus_amb_diff := some 50
         pop_65plus_amb_diff_pct := FVal.num 0 } },
   { tract := exTract2
     metrics := some
       { GEOID := "06075990100"
         total_pop_5plus := some 500, total_amb_diff := some 5
         total_amb_diff_pct := FVal.num 1
         pop_65plus := some 100, pop_65plus_amb_diff := some 2
         pop_65plus_amb_diff_pct := FVal.num 2 } }]

/-- A merged row violating all four negativity checks, both containment
checks and both percentage checks at once. -/
def rowA : AnnotatedRow :=
  { tract := exTract
    metrics := some
      { GEOID := "06075010800"
        total_pop_5plus := some (-2), total_amb_diff := some (-1)
        total_amb_diff_pct := FVal.num 200
        pop_65plus := some (-2), pop_65plus_amb_diff := some (-1)
        pop_65plus_amb_diff_pct := FVal.num 200 } }

/-- A merged row whose senior population exceeds its total population. -/
def rowB : AnnotatedRow :=
  { tract := exTract2
    metrics := some
      { GEOID := "06075990100"
        total_pop_5plus := some 3, total_amb_diff := some 0
        total_amb_diff_pct := FVal.num 0
        pop_65plus := some 5, pop_65plus_amb_diff := some 0
        pop_65plus_amb_diff_pct := FVal.num 0 } }

/-! ## Helper lemmas -/

theorem nadd_none_left (b : Option ℤ) : nadd none b = none := by
  cases b <;> rfl

theorem nadd_none_right (a : Option ℤ) : nadd a none = none := by
  cases a <;> rfl

theorem pctDiv_none_left (b : Option ℤ) : pctDiv none b = FVal.nan := by
  cases b <;> rfl

theorem pctDiv_none_right (a : Option ℤ) : pctDiv a none = FVal.nan := by
  cases a <;> rfl

theorem calc_pop_eq (r : RawRow) :
    (calculateMetricsRow r).total_pop_5plus = r.B18105_001E := rfl

theorem calc_pct_eq (r : RawRow) :
    (calculateMetricsRow r).total_amb_diff_pct
      = ffillna (fround2 (pctDiv (calculateMetricsRow r).total_amb_diff
          (calculateMetricsRow r).total_pop_5plus)) := rfl

theorem calc_spct_eq (r : RawRow) :
    (calculateMetricsRow r).pop_65plus_amb_diff_pct
      = ffillna (fround2 (pctDiv (calculateMetricsRow r).pop_65plus_amb_diff
          (calculateMetricsRow r).pop_65plus)) := rfl

theorem calc_fields (r : RawRow)
    (v1 v4 v7 v10 v13 v16 v20 v23 v26 v29 v32 v12 v15 v28 v31 : ℤ)
    (h1 : r.B18105_001E = some v1)
    (h4 : r.B18105_004E = some v4) (h7 : r.B18105_007E = some v7)
    (h10 : r.B18105_010E = some v10) (h13 : r.B18105_013E = some v13)
    (h16 : r.B18105_016E = some v16) (h20 : r.B18105_020E = some v20)
    (h23 : r.B18105_023E = some v23) (h26 : r.B18105_026E = some v26)
    (h29 : r.B18105_029E = some v29) (h32 : r.B18105_032E = some v32)
    (h12 : r.B18105_012E = some v12) (h15 : r.B18105_015E = some v15)
    (h28 : r.B18105_028E = some v28) (h31 : r.B18105_031E = some v31) :
    (calculateMetricsRow r).total_pop_5plus = some v1 ∧
    (calculateMetricsRow r).total_amb_diff
      = some (v4 + v7 + v10 + v13 + v16 + v20 + v23 + v26 + v29 + v32) ∧
    (calculateMetricsRow r).pop_65plus = some (v12 + v15 + v28 + v31) ∧
    (calculateMetricsRow r).pop_65plus_amb_diff = some (v13 + v16 + v29 + v32) := by
  refine ⟨?_, ?_, ?_, ?_⟩ <;>
    simp [calculateMetricsRow, nadd, h1, h4, h7, h10, h13, h16, h20, h23, h26,
      h29, h32, h12, h15, h28, h31]

theorem roundHalfEven_bounds (q : ℚ) :
    q - 1 / 2 ≤ (roundHalfEven q : ℚ) ∧ (roundHalfEven q : ℚ) ≤ q + 1 / 2 := by
  unfold roundHalfEven
  split_ifs with h1 h2
  · constructor <;> linarith
  · constructor <;> push_cast <;> linarith
  · have habs := abs_le.mp (abs_sub_round q)
    constructor <;> linarith [habs.1, habs.2]

theorem roundHalfEven_nonneg {q : ℚ} (h : 0 ≤ q) : 0 ≤ roundHalfEven q := by
  by_contra hneg
  push_neg at hneg
  have hle : roundHalfEven q ≤ -1 := by omega
  have hle2 : (roundHalfEven q : ℚ) ≤ -1 := by exact_mod_cast hle
  have hb := (roundHalfEven_bounds q).1
  linarith

theorem roundHalfEven_le {q : ℚ} {n : ℤ} (h : q ≤ (n : ℚ)) : roundHalfEven q ≤ n := by
  by_contra hgt
  push_neg at hgt
  have hge : n + 1 ≤ roundHalfEven q := by omega
  have hge2 : ((n : ℚ) + 1) ≤ (roundHalfEven q : ℚ) := by exact_mod_cast hge
  have hb := (roundHalfEven_bounds q).2
  linarith

theorem round2_mem {q : ℚ} (h0 : 0 ≤ q) (h100 : q ≤ 100) :
    0 ≤ round2 q ∧ round2 q ≤ 100 := by
  have hnn : 0 ≤ roundHalfEven (q * 100) := roundHalfEven_nonneg (by linarith)
  have hle : roundHalfEven (q * 100) ≤ (10000 : ℤ) :=
    roundHalfEven_le (by push_cast; linarith)
  unfold round2
  constructor
  · apply div_nonneg _ (by norm_num)
    exact_mod_cast hnn
  · rw [div_le_iff₀ (by norm_num)]
    have hle2 : (roundHalfEven (q * 100) : ℚ) ≤ 10000 := by exact_mod_cast hle
    linarith

/-! ## Claims -/

/-- C1: for every fetched raw-variable row with all fields defined, the
Aggregator returns total_pop_5plus equal to the universe variable
B18105_001E, total_amb_diff equal to the sum of the 10 designated
with-condition variables, pop_65plus equal to the sum of the 4 senior
age-band totals, pop_65plus_amb_diff equal to the sum of the 4 senior
with-condition variables, and (for a nonzero denominator) each percentage
equal to round(count / denominator * 100, 2); in particular the example
row with universe 1000, with-condition sum 150, senior totals 200 and
senior with-condition 40 yields the derived row
(1000, 150, 15.00, 200, 40, 20.00). -/
theorem spec_C1 (r : RawRow)
    (v1 v4 v7 v10 v13 v16 v20 v23 v26 v29 v32 v12 v15 v28 v31 : ℤ)
    (h1 : r.B18105_001E = some v1)
    (h4 : r.B18105_004E = some v4) (h7 : r.B18105_007E = some v7)
    (h10 : r.B18105_010E = some v10) (h13 : r.B18105_013E = some v13)
    (h16 : r.B18105_016E = some v16) (h20 : r.B18105_020E = some v20)
    (h23 : r.B18105_023E = some v23) (h26 : r.B18105_026E = some v26)
    (h29 : r.B18105_029E = some v29) (h32 : r.B18105_032E = some v32)
    (h12 : r.B18105_012E = some v12) (h15 : r.B18105_015E = some v15)
    (h28 : r.B18105_028E = some v28) (h31 : r.B18105_031E = some v31) :
    (calculateMetricsRow r).total_pop_5plus = some v1 ∧
    (calculateMetricsRow r).total_amb_diff
      = some (v4 + v7 + v10 + v13 + v16 + v20 + v23 + v26 + v29 + v32) ∧
    (calculateMetricsRow r).pop_65plus = some (v12 + v15 + v28 + v31) ∧
    (calculateMetricsRow r).pop_65plus_amb_diff = some (v13 + v16 + v29 + v32) ∧
    (v1 ≠ 0 → (calculateMetricsRow r).total_amb_diff_pct
      = FVal.num (round2
          (((v4 + v7 + v10 + v13 + v16 + v20 + v23 + v26 + v29 + v32 : ℤ) : ℚ)
            / ((v1 : ℤ) : ℚ) * 100))) ∧
    (v12 + v15 + v28 + v31 ≠ 0 → (calculateMetricsRow r).pop_65plus_amb_diff_pct
      = FVal.num (round2
          (((v13 + v16 + v29 + v32 : ℤ) : ℚ)
            / ((v12 + v15 + v28 + v31 : ℤ) : ℚ) * 100))) ∧
    (calculateMetricsRow exRow1).total_pop_5plus = some 1000 ∧
    (calculateMetricsRow exRow1).total_amb_diff = some 150 ∧
    (calculateMetricsRow exRow1).total_amb_diff_pct = FVal.num 15 ∧
    (calculateMetricsRow exRow1).pop_65plus = some 200 ∧
    (calculateMetricsRow exRow1).pop_65plus_amb_diff = some 40 ∧
    (calculateMetricsRow exRow1).pop_65plus_amb_diff_pct = FVal.num 20 := by
  obtain ⟨e1, e2, e3, e4⟩ := calc_fields r v1 v4 v7 v10 v13 v16 v20 v23 v26 v29
    v32 v12 v15 v28 v31 h1 h4 h7 h10 h13 h16 h20 h23 h26 h29 h32 h12 h15 h28 h31
  refine ⟨e1, e2, e3, e4, ?_, ?_, by decide, by decide, ?_, by decide, by decide, ?_⟩
  · intro hv1
    rw [calc_pct_eq, e2, e1]
    simp [pctDiv, hv1, fround2, ffillna]
  · intro hP
    rw [calc_spct_eq, e4, e3]
    simp [pctDiv, hP, fround2, ffillna]
  · rw [calc_pct_eq,
      (by decide : (calculateMetricsRow exRow1).total_amb_diff = some 150),
      (by decide : (calculateMetricsRow exRow1).total_pop_5plus = some 1000)]
    norm_num [pctDiv, fround2, ffillna, round2, roundHalfEven, round_eq]
  · rw [calc_spct_eq,
      (by decide : (calculateMetricsRow exRow1).pop_65plus_amb_diff = some 40),
      (by decide : (calculateMetricsRow exRow1).pop_65plus = some 200)]
    norm_num [pctDiv, fround2, ffillna, round2, roundHalfEven, round_eq]

/-- C1 witness: the theorem instantiated at the example row. -/
theorem spec_C1_witness :
    (calculateMetricsRow exRow1).total_pop_5plus = some 1000 ∧
    (calculateMetricsRow exRow1).total_amb_diff = some 150 ∧
    (calculateMetricsRow exRow1).total_amb_diff_pct = FVal.num 15 ∧
    (calculateMetricsRow exRow1).pop_65plus = some 200 ∧
    (calculateMetricsRow exRow1).pop_65plus_amb_diff = some 40 ∧
    (calculateMetricsRow exRow1).pop_65plus_amb_diff_pct = FVal.num 20 :=
  (spec_C1 exRow1 1000 20 20 20 10 10 20 20 10 10 10 50 50 50 50
    rfl rfl rfl rfl rfl rfl rfl rfl rfl rfl rfl rfl rfl rfl rfl).2.2.2.2.2.2

/-- C2 counterexample: the claim says a zero total_eligible_population
forces total_with_condition_pct = 0, but on a row with universe 0 and
with-condition sum 150 the code computes 150 / 0 = +inf, which fillna(0)
does not touch, so the percentage is +inf, not 0. -/
theorem spec_C2_cex :
    (calculateMetricsRow zeroDenomPosRow).total_pop_5plus = some 0 ∧
    (calculateMetricsRow zeroDenomPosRow).total_amb_diff = some 150 ∧
    (calculateMetricsRow zeroDenomPosRow).total_amb_diff_pct = FVal.inf ∧
    (calculateMetricsRow zeroDenomPosRow).total_amb_diff_pct ≠ FVal.num 0 := by
  decide

/-- C2 corrected: a percentage is 0 when its denominator is undefined, or
when the denominator is 0 and the numerator is 0 or undefined (the 0 / 0
NaN is filled with 0); but when the denominator is 0 and the numerator is
positive, the percentage is +inf, not 0.  Likewise for the senior
fields. -/
theorem spec_C2 (r : RawRow) :
    (r.B18105_001E = none → (calculateMetricsRow r).total_amb_diff_pct = FVal.num 0) ∧
    (r.B18105_001E = some 0 →
      ((calculateMetricsRow r).total_amb_diff = none →
        (calculateMetricsRow r).total_amb_diff_pct = FVal.num 0) ∧
      ((calculateMetricsRow r).total_amb_diff = some 0 →
        (calculateMetricsRow r).total_amb_diff_pct = FVal.num 0) ∧
      (∀ k : ℤ, 0 < k → (calculateMetricsRow r).total_amb_diff = some k →
        (calculateMetricsRow r).total_amb_diff_pct = FVal.inf)) ∧
    ((calculateMetricsRow r).pop_65plus = none →
      (calculateMetricsRow r).pop_65plus_amb_diff_pct = FVal.num 0) ∧
    ((calculateMetricsRow r).pop_65plus = some 0 →
      ((calculateMetricsRow r).pop_65plus_amb_diff = none →
        (calculateMetricsRow r).pop_65plus_amb_diff_pct = FVal.num 0) ∧
      ((calculateMetricsRow r).pop_65plus_amb_diff = some 0 →
        (calculateMetricsRow r).pop_65plus_amb_diff_pct = FVal.num 0) ∧
      (∀ k : ℤ, 0 < k → (calculateMetricsRow r).pop_65plus_amb_diff = some k →
        (calculateMetricsRow r).pop_65plus_amb_diff_pct = FVal.inf)) := by
  refine ⟨?_, ?_, ?_, ?_⟩
  · intro h1
    rw [calc_pct_eq, calc_pop_eq, h1, pctDiv_none_right]
    rfl
  · intro h0
    refine ⟨?_, ?_, ?_⟩
    · intro hA
      rw [calc_pct_eq, hA, pctDiv_none_left]
      rfl
    · intro hA
      rw [calc_pct_eq, hA, calc_pop_eq, h0]
      rfl
    · intro k hk hA
      rw [calc_pct_eq, hA, calc_pop_eq, h0]
      simp [pctDiv, hk, hk.ne', fround2, ffillna]
  · intro hP
    rw [calc_spct_eq, hP, pctDiv_none_right]
    rfl
  · intro hP
    refine ⟨?_, ?_, ?_⟩
    · intro hA
      rw [calc_spct_eq, hA, pctDiv_none_left]
      rfl
    · intro hA
      rw [calc_spct_eq, hA, hP]
      rfl
    · intro k hk hA
      rw [calc_spct_eq, hA, hP]
      simp [pctDiv, hk, hk.ne', fround2, ffillna]

/-- C2 witness: the corrected claim instantiated at a row with zero
universe and zero counts (percentage 0), a row with an undefined senior
population (percentage 0), and the zero-universe positive-count row
(percentage +inf). -/
theorem spec_C2_witness :
    (calculateMetricsRow zeroRow).total_amb_diff_pct = FVal.num 0 ∧
    (calculateMetricsRow zeroRow).pop_65plus_amb_diff_pct = FVal.num 0 ∧
    (calculateMetricsRow zeroDenomPosRow).total_amb_diff_pct = FVal.inf :=
  ⟨((spec_C2 zeroRow).2.1 rfl).2.1 (by decide),
   (spec_C2 zeroRow).2.2.1 (by decide),
   ((spec_C2 zeroDenomPosRow).2.1 rfl).2.2 150 (by decide) (by decide)⟩

/-- C7: when a summand of a derived count is undefined, the Aggregator
leaves that count undefined (not zero-filled), and the undefinedness is
resolved to 0 only at the percentage step, where the NaN quotient is
filled with 0.  The Aggregator is a pure function of the row (the
embedding `calculateMetricsRow` is deterministic and side-effect free by
construction), and total_pop_5plus is copied unchanged from the universe
variable. -/
theorem spec_C7 (r : RawRow) :
    ((r.B18105_004E = none ∨ r.B18105_007E = none ∨ r.B18105_010E = none ∨
      r.B18105_013E = none ∨ r.B18105_016E = none ∨ r.B18105_020E = none ∨
      r.B18105_023E = none ∨ r.B18105_026E = none ∨ r.B18105_029E = none ∨
      r.B18105_032E = none) →
      (calculateMetricsRow r).total_amb_diff = none ∧
      (calculateMetricsRow r).total_amb_diff_pct = FVal.num 0) ∧
    ((r.B18105_012E = none ∨ r.B18105_015E = none ∨ r.B18105_028E = none ∨
      r.B18105_031E = none) →
      (calculateMetricsRow r).pop_65plus = none ∧
      (calculateMetricsRow r).pop_65plus_amb_diff_pct = FVal.num 0) ∧
    ((r.B18105_013E = none ∨ r.B18105_016E = none ∨ r.B18105_029E = none ∨
      r.B18105_032E = none) →
      (calculateMetricsRow r).pop_65plus_amb_diff = none ∧
      (calculateMetricsRow r).pop_65plus_amb_diff_pct = FVal.num 0) ∧
    (calculateMetricsRow r).total_pop_5plus = r.B18105_001E := by
  refine ⟨?_, ?_, ?_, rfl⟩
  · intro h
    have hA : (calculateMetricsRow r).total_amb_diff = none := by
      rcases h with h | h | h | h | h | h | h | h | h | h <;>
        simp [calculateMetricsRow, h, nadd_none_left, nadd_none_right]
    exact ⟨hA, by rw [calc_pct_eq, hA, pctDiv_none_left]; rfl⟩
  · intro h
    have hP : (calculateMetricsRow r).pop_65plus = none := by
      rcases h with h | h | h | h <;>
        simp [calculateMetricsRow, h, nadd_none_left, nadd_none_right]
    exact ⟨hP, by rw [calc_spct_eq, hP, pctDiv_none_right]; rfl⟩
  · intro h
    have hQ : (calculateMetricsRow r).pop_65plus_amb_diff = none := by
      rcases h with h | h | h | h <;>
        simp [calculateMetricsRow, h, nadd_none_left, nadd_none_right]
    exact ⟨hQ, by rw [calc_spct_eq, hQ, pctDiv_none_left]; rfl⟩

/-- C7 witness: the theorem instantiated at a row with an undefined
with-condition summand, senior total and senior with-condition summand. -/
theorem spec_C7_witness :
    (calculateMetricsRow undefRow).total_amb_diff = none ∧
    (calculateMetricsRow undefRow).total_amb_diff_pct = FVal.num 0 ∧
    (calculateMetricsRow undefRow).pop_65plus = none ∧
    (calculateMetricsRow undefRow).pop_65plus_amb_diff = none ∧
    (calculateMetricsRow undefRow).pop_65plus_amb_diff_pct = FVal.num 0 :=
  ⟨((spec_C7 undefRow).1 (Or.inl rfl)).1,
   ((spec_C7 undefRow).1 (Or.inl rfl)).2,
   ((spec_C7 undefRow).2.1 (Or.inl rfl)).1,
   ((spec_C7 undefRow).2.2.1 (Or.inl rfl)).1,
   ((spec_C7 undefRow).2.1 (Or.inl rfl)).2⟩

/-- C8: for every raw-variable row whose inputs are all defined and
non-negative, with the with-condition sum at most the universe and the
senior with-condition sum at most the senior population, both rounded
percentages are rationals in [0, 100]. -/
theorem spec_C8 (r : RawRow)
    (v1 v4 v7 v10 v13 v16 v20 v23 v26 v29 v32 v12 v15 v28 v31 : ℤ)
    (h1 : r.B18105_001E = some v1)
    (h4 : r.B18105_004E = some v4) (h7 : r.B18105_007E = some v7)
    (h10 : r.B18105_010E = some v10) (h13 : r.B18105_013E = some v13)
    (h16 : r.B18105_016E = some v16) (h20 : r.B18105_020E = some v20)
    (h23 : r.B18105_023E = some v23) (h26 : r.B18105_026E = some v26)
    (h29 : r.B18105_029E = some v29) (h32 : r.B18105_032E = some v32)
    (h12 : r.B18105_012E = some v12) (h15 : r.B18105_015E = some v15)
    (h28 : r.B18105_028E = some v28) (h31 : r.B18105_031E = some v31)
    (hnn : 0 ≤ v1 ∧ 0 ≤ v4 ∧ 0 ≤ v7 ∧ 0 ≤ v10 ∧ 0 ≤ v13 ∧ 0 ≤ v16 ∧
      0 ≤ v20 ∧ 0 ≤ v23 ∧ 0 ≤ v26 ∧ 0 ≤ v29 ∧ 0 ≤ v32 ∧ 0 ≤ v12 ∧
      0 ≤ v15 ∧ 0 ≤ v28 ∧ 0 ≤ v31)
    (hc1 : v4 + v7 + v10 + v13 + v16 + v20 + v23 + v26 + v29 + v32 ≤ v1)
    (hc2 : v13 + v16 + v29 + v32 ≤ v12 + v15 + v28 + v31) :
    pctInRange (calculateMetricsRow r).total_amb_diff_pct ∧
    pctInRange (calculateMetricsRow r).pop_65plus_amb_diff_pct := by
  obtain ⟨e1, e2, e3, e4⟩ := calc_fields r v1 v4 v7 v10 v13 v16 v20 v23 v26 v29
    v32 v12 v15 v28 v31 h1 h4 h7 h10 h13 h16 h20 h23 h26 h29 h32 h12 h15 h28 h31
  obtain ⟨n1, n4, n7, n10, n13, n16, n20, n23, n26, n29, n32, n12, n15, n28, n31⟩ := hnn
  constructor
  · rw [calc_pct_eq, e2, e1]
    by_cases hv : v1 = 0
    · have hS : v4 + v7 + v10 + v13 + v16 + v20 + v23 + v26 + v29 + v32 = 0 := by
        omega
      rw [hS, hv]
      exact ⟨0, rfl, le_refl 0, by norm_num⟩
    · simp only [pctDiv, hv, if_false, fround2, ffillna]
      have hv1 : 0 < v1 := lt_of_le_of_ne n1 (Ne.symm hv)
      have hv1q : (0 : ℚ) < (v1 : ℚ) := by exact_mod_cast hv1
      have hS0 : (0 : ℚ) ≤ ((v4 + v7 + v10 + v13 + v16 + v20 + v23 + v26 + v29 + v32 : ℤ) : ℚ) := by
        exact_mod_cast (by omega : (0 : ℤ) ≤ v4 + v7 + v10 + v13 + v16 + v20 + v23 + v26 + v29 + v32)
      have hSv : ((v4 + v7 + v10 + v13 + v16 + v20 + v23 + v26 + v29 + v32 : ℤ) : ℚ) ≤ (v1 : ℚ) := by
        exact_mod_cast hc1
      have h0 : 0 ≤ ((v4 + v7 + v10 + v13 + v16 + v20 + v23 + v26 + v29 + v32 : ℤ) : ℚ) / (v1 : ℚ) * 100 :=
        mul_nonneg (div_nonneg hS0 (le_of_lt hv1q)) (by norm_num)
      have h100 : ((v4 + v7 + v10 + v13 + v16 + v20 + v23 + v26 + v29 + v32 : ℤ) : ℚ) / (v1 : ℚ) * 100 ≤ 100 := by
        rw [div_mul_eq_mul_div, div_le_iff₀ hv1q]
        linarith
      obtain ⟨hr0, hr100⟩ := round2_mem h0 h100
      exact ⟨_, rfl, hr0, hr100⟩
  · rw [calc_spct_eq, e4, e3]
    by_cases hv : v12 + v15 + v28 + v31 = 0
    · have hS : v13 + v16 + v29 + v32 = 0 := by omega
      rw [hS, hv]
      exact ⟨0, rfl, le_refl 0, by norm_num⟩
    · simp only [pctDiv, hv, if_false, fround2, ffillna]
      have hv1 : 0 < v12 + v15 + v28 + v31 := by omega
      have hv1q : (0 : ℚ) < ((v12 + v15 + v28 + v31 : ℤ) : ℚ) := by exact_mod_cast hv1
      have hS0 : (0 : ℚ) ≤ ((v13 + v16 + v29 + v32 : ℤ) : ℚ) := by
        exact_mod_cast (by omega : (0 : ℤ) ≤ v13 + v16 + v29 + v32)
      have hSv : ((v13 + v16 + v29 + v32 : ℤ) : ℚ) ≤ ((v12 + v15 + v28 + v31 : ℤ) : ℚ) := by
        exact_mod_cast hc2
      have h0 : 0 ≤ ((v13 + v16 + v29 + v32 : ℤ) : ℚ) / ((v12 + v15 + v28 + v31 : ℤ) : ℚ) * 100 :=
        mul_nonneg (div_nonneg hS0 (le_of_lt hv1q)) (by norm_num)
      have h100 : ((v13 + v16 + v29 + v32 : ℤ) : ℚ) / ((v12 + v15 + v28 + v31 : ℤ) : ℚ) * 100 ≤ 100 := by
        rw [div_mul_eq_mul_div, div_le_iff₀ hv1q]
        linarith
      obtain ⟨hr0, hr100⟩ := round2_mem h0 h100
      exact ⟨_, rfl, hr0, hr100⟩

/-- C8 witness: the theorem instantiated at the example row. -/
theorem spec_C8_witness :
    pctInRange (calculateMetricsRow exRow1).total_amb_diff_pct ∧
    pctInRange (calculateMetricsRow exRow1).pop_65plus_amb_diff_pct :=
  spec_C8 exRow1 1000 20 20 20 10 10 20 20 10 10 10 50 50 50 50
    rfl rfl rfl rfl rfl rfl rfl rfl rfl rfl rfl rfl rfl rfl rfl
    (by decide) (by decide) (by decide)

theorem mem_ite_singleton {s m : String} {c : Prop} [Decidable c] :
    s ∈ (if c then [m] else []) ↔ (c ∧ s = m) := by
  by_cases h : c <;> simp [h]

theorem ite_sublist {c : Prop} [Decidable c] (m : List String) :
    List.Sublist (if c then m else []) m := by
  by_cases h : c
  · rw [if_pos h]
  · rw [if_neg h]
    exact List.nil_sublist m

theorem null_fields {a : AnnotatedRow} (h : a.metrics = none) :
    a.total_pop_5plus = none ∧ a.total_amb_diff = none ∧ a.pop_65plus = none ∧
    a.pop_65plus_amb_diff = none ∧ a.total_amb_diff_pct = FVal.nan ∧
    a.pop_65plus_amb_diff_pct = FVal.nan := by
  simp [AnnotatedRow.total_pop_5plus, AnnotatedRow.total_amb_diff,
    AnnotatedRow.pop_65plus, AnnotatedRow.pop_65plus_amb_diff,
    AnnotatedRow.total_amb_diff_pct, AnnotatedRow.pop_65plus_amb_diff_pct, h]

theorem qualityErrors_eq (df : List AnnotatedRow) :
    qualityErrors df =
      (if df.any (fun a => oltZero a.total_pop_5plus) then
        ["ERROR: Negative values found in total_pop_5plus"] else [])
      ++ ((if df.any (fun a => oltZero a.total_amb_diff) then
        ["ERROR: Negative values found in total_amb_diff"] else [])
      ++ ((if df.any (fun a => oltZero a.pop_65plus) then
        ["ERROR: Negative values found in pop_65plus"] else [])
      ++ ((if df.any (fun a => oltZero a.pop_65plus_amb_diff) then
        ["ERROR: Negative values found in pop_65plus_amb_diff"] else [])
      ++ ((if df.any (fun a => ogt a.total_amb_diff a.total_pop_5plus) then
        ["ERROR: Total ambulatory difficulty exceeds total population"] else [])
      ++ ((if df.any (fun a => ogt a.pop_65plus_amb_diff a.pop_65plus) then
        ["ERROR: 65+ ambulatory difficulty exceeds 65+ population"] else [])
      ++ ((if df.any (fun a => ogt a.pop_65plus a.total_pop_5plus) then
        ["ERROR: 65+ population exceeds total population"] else [])
      ++ ((if df.any (fun a => fgt100 a.total_amb_diff_pct) then
        ["ERROR: Total ambulatory difficulty percentage exceeds 100%"] else [])
      ++ (if df.any (fun a => fgt100 a.pop_65plus_amb_diff_pct) then
        ["ERROR: 65+ ambulatory difficulty percentage exceeds 100%"] else [])))))))) := by
  unfold qualityErrors numeric_cols
  by_cases hq1 : df.any (fun a => oltZero a.total_pop_5plus) = true <;>
  by_cases hq2 : df.any (fun a => oltZero a.total_amb_diff) = true <;>
  by_cases hq3 : df.any (fun a => oltZero a.pop_65plus) = true <;>
  by_cases hq4 : df.any (fun a => oltZero a.pop_65plus_amb_diff) = true <;>
    simp [List.filter, colVal, hq1, hq2, hq3, hq4]

theorem sublist_helper1 (r a f m p w : Event) (W C : List Event) :
    List.Sublist [m, p, w] ((([r, a, f, m] ++ W) ++ [p, w]) ++ C) := by
  apply List.Sublist.cons
  apply List.Sublist.cons
  apply List.Sublist.cons
  apply List.Sublist.cons₂
  exact List.Sublist.append (List.sublist_append_right W [p, w]) (List.nil_sublist C)

theorem sublist_helper2 (r a f m p w pe : Event) (W : List Event) :
    List.Sublist [w, pe] ((([r, a, f, m] ++ W) ++ [p, w]) ++ [pe]) := by
  have h3 : List.Sublist [w] [p, w] := List.Sublist.cons p (List.Sublist.refl [w])
  have h1 : List.Sublist ([] ++ [w]) (([r, a, f, m] ++ W) ++ [p, w]) :=
    List.Sublist.append (List.nil_sublist ([r, a, f, m] ++ W)) h3
  exact List.Sublist.append h1 (List.Sublist.refl [pe])

/-- C3 counterexample: the claim says a run that fails validation has not
written the output file, but on a concrete input that fails the quality
checks the run exits with status 1 and its trace contains the CSV write:
`main` writes the output (line 219) before the quality checks
(lines 222-252). -/
theorem spec_C3_cex :
    (runMain [exTract] (Except.ok [badRow])).exitCode = 1 ∧
    Event.writeOutput ∈ (runMain [exTract] (Except.ok [badRow])).events := by
  decide

/-- C3 corrected: the pipeline order is merge, then print summary, then
write output, then validate.  A run exits with status 1 exactly when the
quality-check error list is non-empty, the trace always contains merge,
summary and write in that order, and a validation-failing run contains the
write strictly before the error report, so the output file has been
written. -/
theorem spec_C3 (t : TractRow) (ts : List TractRow) (rows : List RawRow) :
    ((runMain (t :: ts) (Except.ok rows)).exitCode = 1 ↔
      qualityErrors (annotatedTable (t :: ts) rows) ≠ []) ∧
    List.Sublist [Event.mergeStep, Event.printSummary, Event.writeOutput]
      (runMain (t :: ts) (Except.ok rows)).events ∧
    (qualityErrors (annotatedTable (t :: ts) rows) ≠ [] →
      List.Sublist [Event.writeOutput,
          Event.printErrors (qualityErrors (annotatedTable (t :: ts) rows))]
        (runMain (t :: ts) (Except.ok rows)).events) := by
  unfold annotatedTable
  simp only [runMain, List.map_cons]
  refine ⟨?_, ?_, ?_⟩
  · split_ifs with h <;> simp [h]
  · exact sublist_helper1 _ _ _ _ _ _ _ _
  · intro hne
    rw [if_neg hne]
    exact sublist_helper2 _ _ _ _ _ _ _ _

/-- C3 witness: the corrected claim instantiated at a failing input. -/
theorem spec_C3_witness :
    List.Sublist [Event.writeOutput,
        Event.printErrors (qualityErrors (annotatedTable [exTract] [badRow]))]
      (runMain [exTract] (Except.ok [badRow])).events :=
  (spec_C3 exTract [] [badRow]).2.2 (by decide)

/-- C4 counterexample: the claim says the output row count always equals
the input row count for every metrics table produced from the API
response, but a response that repeats a tract row produces a metrics table
with a duplicate identifier, and the left join then emits that input
record twice: one input row yields two output rows. -/
theorem spec_C4_cex :
    [exTract].length = 1 ∧
    (annotatedTable [exTract] [exRow1, exRow1]).length = 2 := by
  decide

/-- C4 corrected: provided the metrics-table identifiers are distinct (the
API returns each area at most once), the left join keeps every input
record exactly once and in order, a row's derived fields are all null
exactly when no metrics row matched its identifier, and a join miss only
produces a warning: the exit code is decided solely by the quality-check
list. -/
theorem spec_C4 :
    (∀ (ts : List TractRow) (ms : List MetricsRow),
      (ms.map MetricsRow.GEOID).Nodup →
      (leftMerge ts ms).map AnnotatedRow.tract = ts ∧
      ∀ a ∈ leftMerge ts ms,
        (a.metrics = none ↔ ∀ m ∈ ms, m.GEOID ≠ a.tract.GEOID) ∧
        (a.metrics = none →
          a.total_pop_5plus = none ∧ a.total_amb_diff = none ∧
          a.pop_65plus = none ∧ a.pop_65plus_amb_diff = none ∧
          a.total_amb_diff_pct = FVal.nan ∧
          a.pop_65plus_amb_diff_pct = FVal.nan)) ∧
    (∀ (t : TractRow) (ts : List TractRow) (rows : List RawRow),
      (runMain (t :: ts) (Except.ok rows)).exitCode
        = (if qualityErrors (annotatedTable (t :: ts) rows) = [] then 0 else 1) ∧
      (0 < ((annotatedTable (t :: ts) rows).filter
            (fun a => a.total_pop_5plus.isNone)).length →
        Event.warnMissing ((annotatedTable (t :: ts) rows).filter
            (fun a => a.total_pop_5plus.isNone)).length
          ∈ (runMain (t :: ts) (Except.ok rows)).events)) := by
  constructor
  · intro ts ms hnd
    induction ts with
    | nil =>
      exact ⟨rfl, by intro a ha; cases ha⟩
    | cons t ts ih =>
      obtain ⟨ih1, ih2⟩ := ih
      rcases hsplit : ms.filter (fun m => m.GEOID == t.GEOID) with _ | ⟨m, l⟩
      · constructor
        · simp only [leftMerge, hsplit]
          simp [ih1]
        · intro a ha
          simp only [leftMerge, hsplit, List.cons_append, List.nil_append,
            List.mem_cons] at ha
          rcases ha with ha | ha
          · subst ha
            refine ⟨?_, fun h => null_fields h⟩
            simp only [true_iff]
            intro m hm
            have hnp := List.filter_eq_nil_iff.mp hsplit m hm
            simpa using hnp
          · exact ih2 a ha
      · have hl : l = [] := by
          have hsub : List.Sublist (ms.filter (fun m => m.GEOID == t.GEOID)) ms :=
            List.filter_sublist ms
          rw [hsplit] at hsub
          have hnd2 : ((m :: l).map MetricsRow.GEOID).Nodup :=
            hnd.sublist (List.Sublist.map MetricsRow.GEOID hsub)
          cases l with
          | nil => rfl
          | cons m2 l2 =>
            exfalso
            have hpred : ∀ x ∈ (m :: m2 :: l2), (x.GEOID == t.GEOID) = true := by
              intro x hx
              have hxf : x ∈ ms.filter (fun m => m.GEOID == t.GEOID) := by
                rw [hsplit]; exact hx
              exact (List.mem_filter.mp hxf).2
            have hm1 : m.GEOID = t.GEOID := by
              have := hpred m (List.mem_cons_self m (m2 :: l2))
              simpa using this
            have hm2 : m2.GEOID = t.GEOID := by
              have := hpred m2 (List.mem_cons_of_mem m (List.mem_cons_self m2 l2))
              simpa using this
            have : m.GEOID ∉ ((m2 :: l2).map MetricsRow.GEOID) :=
              (List.nodup_cons.mp hnd2).1
            exact this (by simp [hm1, hm2])
        subst hl
        have hmem : m ∈ ms ∧ (m.GEOID == t.GEOID) = true := by
          apply List.mem_filter.mp
          rw [hsplit]
          exact List.mem_cons_self m []
        have hmg : m.GEOID = t.GEOID := by
          have := hmem.2
          simpa using this
        constructor
        · simp only [leftMerge, hsplit]
          simp [ih1]
        · intro a ha
          simp only [leftMerge, hsplit, List.map_cons, List.map_nil,
            List.cons_append, List.nil_append, List.mem_cons] at ha
          rcases ha with ha | ha
          · subst ha
            constructor
            · simp only [iff_false, reduceCtorEq, false_iff]
              intro hall
              exact hall m hmem.1 hmg
            · intro h
              cases h
          · exact ih2 a ha
  · intro t ts rows
    constructor
    · simp only [runMain, annotatedTable, List.map_cons]
    · intro hmiss
      unfold annotatedTable at hmiss
      simp only [List.map_cons] at hmiss
      simp only [runMain, annotatedTable, List.map_cons, gt_iff_lt]
      rw [if_pos hmiss]
      simp

/-- C4 witness: the corrected claim instantiated at a two-row input table
and a one-row metrics table with distinct identifiers. -/
theorem spec_C4_witness :
    (leftMerge [exTract, exTract2] [exMetrics1]).map AnnotatedRow.tract
      = [exTract, exTract2] :=
  (spec_C4.1 [exTract, exTract2] [exMetrics1] (by decide)).1

/-- C5: each quality-check message is in the accumulated error list exactly
when its own condition holds somewhere in the merged table, independently
of the other checks (no short-circuiting), and whenever the list is
non-empty the run prints every message and exits with status 1. -/
theorem spec_C5 (df : List AnnotatedRow) (t : TractRow) (ts : List TractRow)
    (rows : List RawRow) :
    (("ERROR: Negative values found in total_pop_5plus" ∈ qualityErrors df ↔
        df.any (fun a => oltZero a.total_pop_5plus) = true) ∧
     ("ERROR: Negative values found in total_amb_diff" ∈ qualityErrors df ↔
        df.any (fun a => oltZero a.total_amb_diff) = true) ∧
     ("ERROR: Negative values found in pop_65plus" ∈ qualityErrors df ↔
        df.any (fun a => oltZero a.pop_65plus) = true) ∧
     ("ERROR: Negative values found in pop_65plus_amb_diff" ∈ qualityErrors df ↔
        df.any (fun a => oltZero a.pop_65plus_amb_diff) = true) ∧
     ("ERROR: Total ambulatory difficulty exceeds total population" ∈ qualityErrors df ↔
        df.any (fun a => ogt a.total_amb_diff a.total_pop_5plus) = true) ∧
     ("ERROR: 65+ ambulatory difficulty exceeds 65+ population" ∈ qualityErrors df ↔
        df.any (fun a => ogt a.pop_65plus_amb_diff a.pop_65plus) = true) ∧
     ("ERROR: 65+ population exceeds total population" ∈ qualityErrors df ↔
        df.any (fun a => ogt a.pop_65plus a.total_pop_5plus) = true) ∧
     ("ERROR: Total ambulatory difficulty percentage exceeds 100%" ∈ qualityErrors df ↔
        df.any (fun a => fgt100 a.total_amb_diff_pct) = true) ∧
     ("ERROR: 65+ ambulatory difficulty percentage exceeds 100%" ∈ qualityErrors df ↔
        df.any (fun a => fgt100 a.pop_65plus_amb_diff_pct) = true)) ∧
    (qualityErrors (annotatedTable (t :: ts) rows) ≠ [] →
      (runMain (t :: ts) (Except.ok rows)).exitCode = 1 ∧
      Event.printErrors (qualityErrors (annotatedTable (t :: ts) rows))
        ∈ (runMain (t :: ts) (Except.ok rows)).events) := by
  constructor
  · rw [qualityErrors_eq df]
    refine ⟨?_, ?_, ?_, ?_, ?_, ?_, ?_, ?_, ?_⟩ <;>
      simp [mem_ite_singleton, List.mem_append]
  · intro hne
    unfold annotatedTable at hne
    simp only [List.map_cons] at hne
    constructor
    · simp only [runMain, annotatedTable, List.map_cons]
      rw [if_neg hne]
    · simp only [runMain, annotatedTable, List.map_cons]
      rw [if_neg hne]
      simp

/-- C5 witness: the senior containment message is raised by the table that
contains the spec example row (senior with-condition 50, senior population
40), and a failing run exits with status 1. -/
theorem spec_C5_witness :
    "ERROR: 65+ ambulatory difficulty exceeds 65+ population" ∈ qualityErrors exDf5 ∧
    (runMain [exTract] (Except.ok [badRow])).exitCode = 1 :=
  ⟨(spec_C5 exDf5 exTract [] []).1.2.2.2.2.2.1.mpr (by decide),
   ((spec_C5 exDf5 exTract [] [badRow]).2 (by decide)).1⟩

/-- C6: on any transport or HTTP failure of the single API request the run
prints the failure to stderr, exits with code 1 immediately, performs no
retry (exactly one request event) and never reaches the CSV write. -/
theorem spec_C6 (t : TractRow) (ts : List TractRow) (e : String) :
    (runMain (t :: ts) (Except.error e)).events
      = [Event.readInput, Event.apiRequest (buildUrl t.GEOID), Event.fetchError e] ∧
    (runMain (t :: ts) (Except.error e)).exitCode = 1 ∧
    Event.fetchError e ∈ (runMain (t :: ts) (Except.error e)).events ∧
    Event.writeOutput ∉ (runMain (t :: ts) (Except.error e)).events ∧
    (runMain (t :: ts) (Except.error e)).events.countP
      (fun ev => match ev with | Event.apiRequest _ => true | _ => false) = 1 := by
  refine ⟨rfl, rfl, ?_, ?_, ?_⟩
  · simp [runMain]
  · simp [runMain]
  · simp [runMain, List.countP_cons, List.countP_nil]

/-- C9: the left join preserves input order: projecting the merged rows to
their input records yields exactly the input table with each record
repeated once per matching metrics row (once when there is no match), in
input order. -/
theorem spec_C9 (ts : List TractRow) (ms : List MetricsRow) :
    (leftMerge ts ms).map AnnotatedRow.tract
      = ts.flatMap (fun t =>
          List.replicate (max 1 (ms.filter (fun m => m.GEOID == t.GEOID)).length) t) := by
  induction ts with
  | nil => rfl
  | cons t ts ih =>
    rcases hsplit : ms.filter (fun m => m.GEOID == t.GEOID) with _ | ⟨m, l⟩
    · simp only [leftMerge, hsplit, List.flatMap_cons, List.map_append, ih,
        List.length_nil]
      rfl
    · simp only [leftMerge, hsplit, List.flatMap_cons, List.map_append, ih,
        List.map_map, List.length_cons]
      congr 1
      rw [show max 1 (l.length + 1) = l.length + 1 by omega]
      exact List.map_const' (m :: l) t

/-- C10 counterexample: the claim bounds the error list by 6 messages, but
the negativity check emits one message per affected column; a table whose
rows violate all four negativity checks and all five containment and
percentage checks produces 9 messages. -/
theorem spec_C10_cex :
    (qualityErrors [rowA, rowB]).length = 9 ∧
    ¬ (qualityErrors [rowA, rowB]).length ≤ 6 := by
  decide

/-- C10 corrected: the error list is always an ordered sublist of the nine
fixed messages (four negativity messages, one per count column, plus the
five containment and percentage messages), hence has at most 9 entries;
the messages identify check kinds and columns, never individual rows. -/
theorem spec_C10 (df : List AnnotatedRow) :
    List.Sublist (qualityErrors df) allQualityMsgs ∧
    (qualityErrors df).length ≤ 9 := by
  have hs : List.Sublist (qualityErrors df) allQualityMsgs := by
    unfold qualityErrors allQualityMsgs
    simp only [List.append_assoc]
    refine List.Sublist.append
      (List.Sublist.map _ (List.filter_sublist numeric_cols)) ?_
    exact List.Sublist.append
      (ite_sublist ["ERROR: Total ambulatory difficulty exceeds total population"])
      (List.Sublist.append
        (ite_sublist ["ERROR: 65+ ambulatory difficulty exceeds 65+ population"])
        (List.Sublist.append
          (ite_sublist ["ERROR: 65+ population exceeds total population"])
          (List.Sublist.append
            (ite_sublist ["ERROR: Total ambulatory difficulty percentage exceeds 100%"])
            (ite_sublist ["ERROR: 65+ ambulatory difficulty percentage exceeds 100%"]))))
  exact ⟨hs, le_trans hs.length_le (by decide)⟩

end FetchCensus
